import Mathlib

/-!
Verification of the speak-perf-mcp performance-testing orchestrator.

This file gives a shallow embedding, in Lean 4, of the parts of the Go
source that the design-spec claims are about, and settles each claim
against that embedding:

* `step1/mcp/tools/shared.go` — `FetchComposeContent`, `StoreComposeFile`,
  `WriteComposeToTemp`, `GetExecutorType`, `GetScenarioConfig`,
  `ParseUIInstructions`;
* `step1/mcp/tools/discover_specs.go` — `DiscoverSpecsTool.Handle`
  (container bracket, auto-discovery loop);
* `step1/mcp/tools/analyze_results.go` — `AnalyzeResultsTool.Handle`
  (SLA checks, historical comparison);
* the `run_performance_test`, `test_application` and
  `quick_performance_test` handlers (container bracket, TestRun
  life-cycle, script generation);
* `GenerateAPITestsTool.generateK6APITest` and
  `CreateUITestTool.generateK6UITest` (script templates).

External effects (SQLite, HTTP, the filesystem, `docker compose`, `k6`)
are represented by explicit state (lists of rows), by stub functions
passed as parameters, or — for the defer-based cleanup bracket — by a
small trace semantics over the handler's instruction sequence.
-/

namespace SpeakPerf

/-! ## Compose store (`shared.go`: `StoreComposeFile`)

`StoreComposeFile` computes an MD5 digest of the content, looks the digest
up in `compose_files` (`SELECT id FROM compose_files WHERE hash = ?`,
first row in rowid order) and, on a miss, inserts a fresh row.  The
digest function is kept abstract (`hashFn`): the only property of
`crypto/md5` the code relies on for deduplication is that it is a
deterministic function of the content bytes. -/

/-- One row of the `compose_files` table
(`id INTEGER PRIMARY KEY AUTOINCREMENT, source_url, content, hash`). -/
structure ComposeRow where
  id : Nat
  source : String
  content : String
  hash : String
  deriving Repr, DecidableEq

/-- The `compose_files` table: rows in rowid (insertion) order, plus the
next autoincrement id. -/
structure ComposeDB where
  rows : List ComposeRow
  nextId : Nat
  deriving Repr, DecidableEq

/-- `StoreComposeFile(db, source, content)` from `shared.go`: hash the
content, reuse the first row with that hash if one exists, otherwise
insert a new row and return its id. -/
def storeComposeFile (hashFn : String → String) (db : ComposeDB)
    (source content : String) : Nat × ComposeDB :=
  let h := hashFn content
  match db.rows.find? (fun r => r.hash = h) with
  | some r => (r.id, db)
  | none =>
      (db.nextId,
       { rows := db.rows ++ [⟨db.nextId, source, content, h⟩],
         nextId := db.nextId + 1 })

/-! ## Compose source resolver (`shared.go`: `FetchComposeContent`)

`FetchComposeContent(source)` treats `source` as a URL when it has an
`http://` or `https://` prefix; it then performs a single `http.Get` and
returns the body only when the response status is exactly
`http.StatusOK` (200).  Otherwise `source` is read as a local file with
`os.ReadFile`.  The HTTP layer and the filesystem are stubs:
`get url = .transportError` models a transport-level error from
`http.Get`, `.response status body` a completed response whose body read
(`io.ReadAll`) yields `body` (`none` = read error); `readFile path = none`
models an unreadable path. -/

/-- Go's `strings.HasPrefix`, at the character level (for valid UTF-8
strings Go's byte-level prefix test agrees with the character-level
one). -/
def goHasPrefix (s pre : String) : Bool :=
  pre.data.isPrefixOf s.data

/-- Outcome of the stubbed `http.Get`. -/
inductive HttpOutcome where
  | transportError
  | response (status : Nat) (body : Option String)
  deriving Repr, DecidableEq

/-- `FetchComposeContent` from `shared.go`, with the failure branches kept
distinct.  The second and third components count how many `http.Get`
calls and how many `os.ReadFile` calls the function performs. -/
def fetchComposeContent (get : String → HttpOutcome)
    (readFile : String → Option String) (source : String) :
    Except String String × Nat × Nat :=
  if goHasPrefix source "http://" || goHasPrefix source "https://" then
    match get source with
    | .transportError => (.error "failed to download compose file", 1, 0)
    | .response status body =>
        if status ≠ 200 then
          (.error ("failed to download compose file: status " ++
            Nat.repr status), 1, 0)
        else
          match body with
          | none => (.error "failed to read response", 1, 0)
          | some b => (.ok b, 1, 0)
  else
    match readFile source with
    | none => (.error "failed to read compose file", 0, 1)
    | some c => (.ok c, 0, 1)

/-! ## API discovery engine (`discover_specs.go`: `DiscoverSpecsTool.Handle`)

After the containers are up, the handler optionally takes explicit spec
paths (`specPaths`, comma separated, each trimmed) and, when
`autoDiscover` is set, probes a fixed ordered list of conventional spec
paths on `http://localhost:<port>` for every service row of the session,
where `<port>` is the host-side segment of the service's first port
mapping.  A URL is kept iff the stubbed `http.Get` returns status
exactly 200 (`err == nil && resp.StatusCode == 200`).  `get url = none`
models a transport error. -/

/-- Go's `strings.Split` for a single-character separator, at the
character level (`strings.Split("", sep) = [""]`, separators at either
end produce empty fields). -/
def splitChar (sep : Char) : List Char → List (List Char)
  | [] => [[]]
  | c :: cs =>
      match splitChar sep cs with
      | [] => [[]]
      | g :: gs => if c = sep then [] :: g :: gs else (c :: g) :: gs

/-- `strings.Split` on strings (single-character separator). -/
def goSplit (s : String) (sep : Char) : List String :=
  (splitChar sep s.data).map (fun l => ⟨l⟩)

/-- Go's `strings.TrimSpace`, at the character level (leading and
trailing whitespace removed). -/
def goTrimSpace (s : String) : String :=
  ⟨((s.data.dropWhile Char.isWhitespace).reverse.dropWhile
      Char.isWhitespace).reverse⟩

/-- The fixed ordered catalogue of conventional spec paths probed by
`discover_specs.go` (`commonPaths`). -/
def commonPaths : List String :=
  ["/swagger.json", "/openapi.json", "/api-docs", "/v2/api-docs",
   "/v3/api-docs", "/api/swagger.json", "/api/openapi.json",
   "/api/v3/openapi.json"]

/-- One row of the `services` table
(`id, session_id, name, image, ports`); `ports` is the comma-joined list
of `host:container` mappings. -/
structure ServiceRow where
  id : Nat
  name : String
  image : String
  ports : String
  deriving Repr, DecidableEq

/-- The candidate URLs probed for one service: the handler splits `ports`
on `","`, skips the service when the first entry is empty, takes the
host-side segment of the first mapping (`strings.Split(portList[0],
":")[0]`) and appends each conventional path to
`http://localhost:<port>`. -/
def serviceCandidateURLs (ports : String) : List String :=
  match goSplit ports ',' with
  | [] => []
  | p :: _ =>
      if p = "" then []
      else
        let port := (goSplit p ':').headD ""
        commonPaths.map (fun path => "http://localhost:" ++ port ++ path)

/-- The auto-discovery loop of `DiscoverSpecsTool.Handle`: services in
row order, paths in catalogue order, a URL kept iff the probe returns
status exactly 200. -/
def discoverAutoSpecs (services : List ServiceRow)
    (get : String → Option Nat) : List String :=
  services.flatMap (fun svc =>
    (serviceCandidateURLs svc.ports).filter (fun url => get url == some 200))

/-- The full discovered list of `DiscoverSpecsTool.Handle`: explicit
comma-separated paths (trimmed, taken verbatim) first, then the
auto-discovery results when `autoDiscover` is set. -/
def discoverSpecsList (specPaths : String) (autoDiscover : Bool)
    (services : List ServiceRow) (get : String → Option Nat) :
    List String :=
  (if specPaths ≠ "" then (goSplit specPaths ',').map goTrimSpace else []) ++
  (if autoDiscover then discoverAutoSpecs services get else [])

/-! ## Results analyzer (`analyze_results.go`: `AnalyzeResultsTool.Handle`)

For every metric row of the run the handler prints a section header and
the aggregates, then looks the endpoint path up in the `endpoints` table
(`SELECT sla_response_time, sla_error_rate FROM endpoints WHERE path = ?`,
first row) and, only when that scan succeeds (a row exists and both SLA
columns are non-NULL — scanning a SQL NULL into `int`/`float64` is an
error), emits one violation line per strictly exceeded threshold.  With
`compareHistory`, it queries `AVG(avg_response_time), AVG(error_rate)`
over samples of the same endpoint from other runs; SQLite's `AVG` is
NULL on the empty set, the scan then fails and the comparison line is
silently skipped.  `float64` aggregates are modelled as `ℚ` and Go's
`%.2f`/`%.1f` rendering as an abstract formatter `fmt : ℚ → String`
(the numeric text never matters for the claims). -/

/-- Go's `strings.Contains`, at the character level. -/
def goContains (s sub : String) : Bool :=
  decide (sub.data <:+: s.data)

/-- One row of the `endpoints` table; both SLA columns are nullable. -/
structure EndpointRow where
  id : Nat
  specId : Nat
  path : String
  method : String
  slaTime : Option Int
  slaError : Option ℚ
  deriving Repr, DecidableEq

/-- One row of the `metrics` table (the columns `analyze_results.go`
reads). -/
structure MetricRow where
  runId : Nat
  endpoint : String
  avgTime : ℚ
  errorRate : ℚ
  deriving Repr, DecidableEq

/-- The SLA check of `AnalyzeResultsTool.Handle` as a pair of flags
(response-time violation, error-rate violation): path looked up in
`endpoints`, and on a successful scan each threshold is compared
strictly (`avgTime > float64(slaTime)`, `errorRate > slaError`). -/
def slaFlags (endpoints : List EndpointRow) (endpoint : String)
    (avgTime errorRate : ℚ) : Bool × Bool :=
  match endpoints.find? (fun e => e.path = endpoint) with
  | none => (false, false)
  | some e =>
      match e.slaTime, e.slaError with
      | some st, some se =>
          (decide (avgTime > (st : ℚ)), decide (errorRate > se))
      | _, _ => (false, false)

/-- The violation lines the SLA check appends to the report. -/
def slaViolationLines (fmt : ℚ → String) (endpoints : List EndpointRow)
    (endpoint : String) (avgTime errorRate : ℚ) : List String :=
  match endpoints.find? (fun e => e.path = endpoint) with
  | none => []
  | some e =>
      match e.slaTime, e.slaError with
      | some st, some se =>
          (if avgTime > (st : ℚ) then
            ["- ⚠️ SLA VIOLATION: Response time exceeds " ++ Int.repr st ++
              " ms"]
          else []) ++
          (if errorRate > se then
            ["- ⚠️ SLA VIOLATION: Error rate exceeds " ++ fmt (se * 100) ++
              "%"]
          else [])
      | _, _ => []

/-- The metric samples of the same endpoint from other runs — the rows
SQLite averages for the historical comparison. -/
def historicalOthers (metrics : List MetricRow) (endpoint : String)
    (runId : Nat) : List MetricRow :=
  metrics.filter (fun m => m.endpoint = endpoint ∧ m.runId ≠ runId)

/-- The comparison line of the `compareHistory` branch: `AVG` over the
empty set is NULL, the scan into `float64` then errors and no line is
emitted; otherwise the percentage delta against the historical mean is
printed.  (When the historical mean is 0, Go's float division produces
±Inf/NaN where `ℚ` yields 0 — no claim depends on that case.) -/
def historyLines (fmt : ℚ → String) (metrics : List MetricRow)
    (runId : Nat) (endpoint : String) (avgTime : ℚ) : List String :=
  let others := historicalOthers metrics endpoint runId
  if others.isEmpty then []
  else
    let histAvg := (others.map (fun m => m.avgTime)).sum /
      (others.length : ℚ)
    ["- Response time: " ++ fmt ((avgTime - histAvg) / histAvg * 100) ++
      "% vs historical average"]

/-- The full per-endpoint section of the analysis report, in source
order: header, aggregates, SLA lines, then (with `compareHistory`) the
historical comparison. -/
def endpointSection (fmt : ℚ → String) (endpoints : List EndpointRow)
    (metrics : List MetricRow) (runId : Nat) (m : MetricRow)
    (compareHistory : Bool) : List String :=
  ["### " ++ m.endpoint,
   "- Avg Response Time: " ++ fmt m.avgTime ++ " ms",
   "- Error Rate: " ++ fmt (m.errorRate * 100) ++ "%"] ++
  slaViolationLines fmt endpoints m.endpoint m.avgTime m.errorRate ++
  (if compareHistory then
    historyLines fmt metrics runId m.endpoint m.avgTime
  else [])

/-! ## Test generator — UI tests (`shared.go`: `ParseUIInstructions`;
`create_ui_test.go`: `generateK6UITest`)

`ParseUIInstructions` lowercases the instruction text and scans a fixed
list of substring triggers in a fixed order: "click" together with
"button" appends the click action, "type" or "enter" the type action,
"wait" the wait action; anything else contributes nothing.
`generateK6UITest` interpolates the target URL into a fixed browser
template (navigation first) and then appends the parsed actions, each
indented and newline-terminated.  Template literals are transcribed
byte-for-byte from the Go raw strings (braces written with hex
escapes). -/

/-- Go's `strings.ToLower`, at the character level (the instruction
vocabulary is ASCII, where `Char.toLower` agrees with Go). -/
def goToLower (s : String) : String :=
  ⟨s.data.map Char.toLower⟩

/-- The click action `ParseUIInstructions` appends. -/
def clickAction : String := "await page.locator('button').click();"

/-- The type action `ParseUIInstructions` appends. -/
def typeAction : String := "await page.locator('input').type('test data');"

/-- The wait action `ParseUIInstructions` appends. -/
def waitAction : String := "await page.waitForTimeout(1000);"

/-- `ParseUIInstructions` from `shared.go`: lowercase, then the three
trigger checks in source order ("click"+"button", "type"/"enter",
"wait"). -/
def parseUIInstructions (instructions : String) : List String :=
  let lowered := goToLower instructions
  (if goContains lowered "click" && goContains lowered "button" then
    [clickAction] else []) ++
  (if goContains lowered "type" || goContains lowered "enter" then
    [typeAction] else []) ++
  (if goContains lowered "wait" then [waitAction] else [])

/-- The browser-script template of `generateK6UITest` up to and including
the navigation to the target URL. -/
def uiScriptHeader (url : String) : String :=
  "import \x7b browser \x7d from 'k6/experimental/browser';\nimport \x7b check \x7d from 'k6';\n\nexport const options = \x7b\n  scenarios: \x7b\n    browser: \x7b\n      executor: 'shared-iterations',\n      vus: 1,\n      iterations: 1,\n      options: \x7b\n        browser: \x7b\n          type: 'chromium',\n        \x7d,\n      \x7d,\n    \x7d,\n  \x7d,\n\x7d;\n\nexport default async function () \x7b\n  const page = browser.newPage();\n  \n  try \x7b\n    await page.goto('" ++
  url ++ "');\n    \n"

/-- The closing part of the browser-script template. -/
def uiScriptFooter : String :=
  "  \x7d finally \x7b\n    page.close();\n  \x7d\n\x7d"

/-- `generateK6UITest` from `create_ui_test.go`: header with the URL
interpolated, one indented line per parsed action, then the footer. -/
def generateK6UITest (url instructions : String) : String :=
  let actions := parseUIInstructions instructions
  uiScriptHeader url ++
    String.join (actions.map (fun action => "    " ++ action ++ "\n")) ++
    uiScriptFooter

/-! ## Test generator — API tests (`shared.go`: `GetExecutorType`,
`GetScenarioConfig`; `GenerateAPITestsTool.generateK6APITest`)

`generateK6APITest` interpolates the test type, its executor name, its
scenario configuration block, the spec id and the endpoint list into a
fixed k6 template; `generate_api_tests` then previews the script with
`script[:200]`. -/

/-- `GetExecutorType` from `shared.go` (`switch testType`). -/
def getExecutorType (testType : String) : String :=
  if testType = "stress" then "ramping-vus"
  else if testType = "spike" then "ramping-arrival-rate"
  else "constant-vus"

/-- `GetScenarioConfig` from `shared.go` (`switch testType`); the three
raw-string blocks byte-for-byte. -/
def getScenarioConfig (testType : String) : String :=
  if testType = "stress" then
    "stages: [\n        \x7b duration: '2m', target: 100 \x7d,\n        \x7b duration: '5m', target: 100 \x7d,\n        \x7b duration: '2m', target: 0 \x7d,\n      ],"
  else if testType = "spike" then
    "startRate: 10,\n      timeUnit: '1s',\n      stages: [\n        \x7b duration: '30s', target: 10 \x7d,\n        \x7b duration: '10s', target: 100 \x7d,\n        \x7b duration: '30s', target: 10 \x7d,\n      ],"
  else
    "vus: 10,\n      duration: '30s',"

/-- `generateK6APITest` from the generate-api-tests tool: the k6 template
with `testType`, the executor, the scenario configuration, `specId` and
`endpoints` interpolated at the `%s` holes. -/
def generateK6APITest (specId endpoints testType : String) : String :=
  "import http from 'k6/http';\nimport \x7b check \x7d from 'k6';\n\nexport const options = \x7b\n  scenarios: \x7b\n    " ++
  testType ++ "_test: \x7b\n      executor: '" ++
  getExecutorType testType ++ "',\n      " ++
  getScenarioConfig testType ++
  "\n    \x7d,\n  \x7d,\n\x7d;\n\nexport default function () \x7b\n  // Generated from spec " ++
  specId ++ "\n  // Testing endpoints: " ++ endpoints ++
  "\n  const res = http.get('http://localhost:8080/api/endpoint');\n  check(res, \x7b\n    'status is 200': (r) => r.status === 200,\n  \x7d);\n\x7d"

/-! ## Runtime materializer identifiers (`shared.go`:
`WriteComposeToTemp`; the per-handler project names)

`WriteComposeToTemp(content, sessionId)` creates
`filepath.Join(os.TempDir(), fmt.Sprintf("k6-test-%d-%d", sessionId,
time.Now().Unix()))` — the working directory embeds the session id and
the wall clock truncated to whole Unix seconds, and nothing else.  The
compose project names are `fmt.Sprintf("discover-%d", sessionId)`
(discovery), `fmt.Sprintf("perftest-%d", time.Now().Unix())`
(run_performance_test), `fmt.Sprintf("auto-%d", sessionId)`
(test_application) and `fmt.Sprintf("quick-%d", sessionId)`
(quick_performance_test).  SQLite row ids and Unix seconds are
non-negative and far from any overflow, so both are modelled as `Nat`;
`%d` renders as `Nat.repr`. -/

/-- The temp directory allocated by `WriteComposeToTemp`:
`<tmp>/k6-test-<sessionId>-<unix seconds>`. -/
def writeComposeTempDir (tmpRoot : String) (sessionId nowUnix : Nat) :
    String :=
  tmpRoot ++ "/k6-test-" ++ Nat.repr sessionId ++ "-" ++ Nat.repr nowUnix

/-- The compose project name of `discover_api_specs`
(`discover-<sessionId>`: no per-operation component). -/
def discoverProjectName (sessionId : Nat) : String :=
  "discover-" ++ Nat.repr sessionId

/-- The compose project name of `run_performance_test`
(`perftest-<unix seconds>`). -/
def perftestProjectName (nowUnix : Nat) : String :=
  "perftest-" ++ Nat.repr nowUnix

/-- The compose project name of `quick_performance_test`
(`quick-<sessionId>`). -/
def quickProjectName (sessionId : Nat) : String :=
  "quick-" ++ Nat.repr sessionId

/-- The compose project name of `test_application`
(`auto-<sessionId>`). -/
def autoProjectName (sessionId : Nat) : String :=
  "auto-" ++ Nat.repr sessionId

/-! ## The cleanup bracket (defer-based teardown in the four
container-running handlers)

`discover_api_specs`, `run_performance_test`, `test_application` and
`quick_performance_test` all follow the same shape: error-checked steps,
`defer os.RemoveAll(dir)` registered right after `WriteComposeToTemp`
succeeds, `docker compose up` error-checked, and `defer` of
`docker compose down -v` registered right after the up succeeds.  Go
runs registered defers in LIFO order on every exit — normal return,
early error return and panic alike — so the compose-down runs before the
directory removal.

The bodies are embedded as instruction lists and executed by a small
trace semantics.  `Instr.step` is a statement whose error (if any) is
ignored, `Instr.fallible` an error-checked call that returns early on
error, and `Instr.acquire e d` an error-checked call that registers the
deferred call `d` on success (the `defer` statement directly follows the
acquisition in the source; a statement whose ignored error would make a
later deferred call panic is still an `acquire`, since a panic during
unwinding does not stop the remaining defers).  An execution is
characterised by how far it gets: `stop = none` runs every instruction,
`some (k, .fail)` makes instruction `k` return an error (the event is
emitted — the call happened), `some (k, .crash)` makes it panic (not
emitted); in each case the defers registered so far unwind in LIFO
order. -/

/-- The externally observable steps of the four handlers. -/
inductive Event where
  | querySession | queryContent | queryTest | queryCompose
  | fetchCompose | storeCompose | createSession | storeServices
  | writeTemp | removeDir
  | bringUp | tearDown
  | settleWait
  | queryServices | rowsClose
  | probeLoop | storeSpecs
  | createTempScript | removeScript
  | insertTest | insertRun | k6Run | updateRun | storeMetrics
  | returnResult
  deriving Repr, DecidableEq

/-- One statement of a handler body, as the cleanup bracket sees it. -/
inductive Instr where
  | step (e : Event)
  | fallible (e : Event)
  | acquire (e : Event) (d : Event)
  deriving Repr, DecidableEq

/-- How instruction `k` ends an execution early: an error return or a
panic. -/
inductive StopKind where
  | fail
  | crash
  deriving Repr, DecidableEq

/-- Count down to the stopping instruction. -/
def decrStop : Option (Nat × StopKind) → Option (Nat × StopKind)
  | some (n + 1, k) => some (n, k)
  | other => other

/-- Trace semantics for a handler body: the emitted events, the LIFO
unwind of the registered defers included. -/
def exec : List Instr → Option (Nat × StopKind) → List Event → List Event
  | [], _, ds => ds
  | .step e :: rest, stop, ds =>
      match stop with
      | some (0, _) => ds
      | _ => e :: exec rest (decrStop stop) ds
  | .fallible e :: rest, stop, ds =>
      match stop with
      | some (0, .fail) => e :: ds
      | some (0, .crash) => ds
      | _ => e :: exec rest (decrStop stop) ds
  | .acquire e d :: rest, stop, ds =>
      match stop with
      | some (0, .fail) => e :: ds
      | some (0, .crash) => ds
      | _ => e :: exec rest (decrStop stop) (d :: ds)

/-- The body of `DiscoverSpecsTool.Handle` (`discover_specs.go`): session
and compose queries, temp materialisation, the container bracket, the
settle sleep, then (when `autoDiscover`) the service query with its
deferred `rows.Close()` and the probe loop, and finally the spec
inserts (errors logged) and the result. -/
def discoverProg (autoDiscover : Bool) : List Instr :=
  [.fallible .querySession, .fallible .queryContent,
   .acquire .writeTemp .removeDir, .acquire .bringUp .tearDown,
   .step .settleWait] ++
  (if autoDiscover then
    [.acquire .queryServices .rowsClose, .step .probeLoop]
  else []) ++
  [.step .storeSpecs, .step .returnResult]

/-- The body of `RunPerformanceTestTool.Handle` (run_performance_test):
test and compose queries, temp materialisation, the container bracket,
the settle sleep, the temp script with its deferred removal, the TestRun
insert (error ignored), the error-checked k6 run, then the TestRun
update and metric storage. -/
def runPerfProg : List Instr :=
  [.fallible .queryTest, .fallible .queryCompose,
   .acquire .writeTemp .removeDir, .acquire .bringUp .tearDown,
   .step .settleWait, .acquire .createTempScript .removeScript,
   .step .insertRun, .fallible .k6Run,
   .step .updateRun, .step .storeMetrics, .step .returnResult]

/-- The body of `TestApplicationTool.Handle` (test_application): resolve,
store, session and service rows, temp materialisation, the container
bracket (whose deferred stop also completes the session), the settle
sleep, discovery, test insert, temp script, TestRun insert, the k6 run
(error ignored — its output is embedded in the report either way) and
the TestRun update. -/
def testAppProg : List Instr :=
  [.fallible .fetchCompose, .fallible .storeCompose,
   .fallible .createSession, .step .storeServices,
   .acquire .writeTemp .removeDir, .acquire .bringUp .tearDown,
   .step .settleWait, .acquire .queryServices .rowsClose,
   .step .probeLoop, .step .insertTest,
   .acquire .createTempScript .removeScript, .step .insertRun,
   .step .k6Run, .step .updateRun, .step .returnResult]

/-- The body of `QuickPerformanceTestTool.Handle`
(quick_performance_test): resolve, store, session, temp materialisation,
the container bracket, the settle sleep, the temp script with its
deferred removal, and the error-checked k6 run. -/
def quickProg : List Instr :=
  [.fallible .fetchCompose, .fallible .storeCompose,
   .fallible .createSession, .acquire .writeTemp .removeDir,
   .acquire .bringUp .tearDown, .step .settleWait,
   .acquire .createTempScript .removeScript, .fallible .k6Run,
   .step .returnResult]

/-- The execution got past instruction `i` (so instruction `i` completed
normally). -/
def okPast (i : Nat) : Option (Nat × StopKind) → Prop
  | none => True
  | some (n, _) => i < n

/-- The cleanup obligation on a trace: the compose-down teardown appears
exactly once, the working-directory removal exactly once, and the
teardown strictly before the removal. -/
def tearDownOnceBeforeRemove (tr : List Event) : Prop :=
  tr.count .tearDown = 1 ∧ tr.count .removeDir = 1 ∧
  tr.indexOf .tearDown < tr.indexOf .removeDir

instance (tr : List Event) : Decidable (tearDownOnceBeforeRemove tr) := by
  unfold tearDownOnceBeforeRemove
  infer_instance

/-! ## TestRun audit row (run_performance_test)

The DB effect of the execution phase of `RunPerformanceTestTool.Handle`:
`INSERT INTO test_runs (test_id, vus, duration)` before the k6 run, then
on success (and only then) `UPDATE test_runs SET completed_at =
CURRENT_TIMESTAMP, results = ?`. -/

/-- The `test_runs` row as run_performance_test writes it. -/
structure TestRunRow where
  testId : String
  vus : Nat
  duration : String
  completedAt : Bool
  results : Option String
  deriving Repr, DecidableEq

/-- The handler's result: the error payload for a failed k6 run carries
the combined process output. -/
inductive RunResult where
  | execError (msg : String)
  | ok (output : String)
  deriving Repr, DecidableEq

/-- The execution phase of `RunPerformanceTestTool.Handle` once the
runtime is up: insert the TestRun row, run k6 (`k6Ok` = zero exit,
`errText` the Go error text, `output` the combined output), and update
the row only on success. -/
def runPerfExecution (testId : String) (vus : Nat) (duration : String)
    (k6Ok : Bool) (errText output : String) : RunResult × TestRunRow :=
  let row : TestRunRow := ⟨testId, vus, duration, false, none⟩
  if k6Ok then
    (.ok output, { row with completedAt := true, results := some output })
  else
    (.execError ("Test execution failed: " ++ errText ++ "\n" ++ output),
     row)

end SpeakPerf

namespace SpeakPerf

theorem storeComposeFile_hit (hashFn : String → String) (db : ComposeDB)
    (source content : String) (r : ComposeRow)
    (h : db.rows.find? (fun r => r.hash = hashFn content) = some r) :
    storeComposeFile hashFn db source content = (r.id, db) := by
  simp [storeComposeFile, h]

theorem storeComposeFile_miss (hashFn : String → String) (db : ComposeDB)
    (source content : String)
    (h : db.rows.find? (fun r => r.hash = hashFn content) = none) :
    storeComposeFile hashFn db source content =
      (db.nextId,
       { rows := db.rows ++ [⟨db.nextId, source, content, hashFn content⟩],
         nextId := db.nextId + 1 }) := by
  simp [storeComposeFile, h]

/-- C2 — Idempotent dedup: for any digest function, any prior table state
and any two sources, storing byte-identical Compose content twice returns
the same row id, the second store performs no insert (the table is
unchanged), and if no row with that content hash existed beforehand the
two stores leave exactly one row with that hash. -/
theorem storeComposeFile_dedup (hashFn : String → String) (db : ComposeDB)
    (s₁ s₂ content : String) :
    (storeComposeFile hashFn
        (storeComposeFile hashFn db s₁ content).2 s₂ content).1 =
      (storeComposeFile hashFn db s₁ content).1 ∧
    (storeComposeFile hashFn
        (storeComposeFile hashFn db s₁ content).2 s₂ content).2 =
      (storeComposeFile hashFn db s₁ content).2 ∧
    ((db.rows.filter (fun r => r.hash = hashFn content)).length = 0 →
      (((storeComposeFile hashFn
          (storeComposeFile hashFn db s₁ content).2 s₂ content).2).rows.filter
            (fun r => r.hash = hashFn content)).length = 1) := by
  rcases h : db.rows.find? (fun r => r.hash = hashFn content) with _ | r
  · -- miss on the first store: a fresh row is inserted, the second
    -- store's hash lookup hits exactly that row.
    have hnone : ∀ x ∈ db.rows, ¬ (x.hash = hashFn content) := by
      intro x hx
      have := List.find?_eq_none.mp h x hx
      simpa using this
    have hfilter : db.rows.filter (fun r => r.hash = hashFn content) = [] := by
      apply List.filter_eq_nil_iff.mpr
      intro x hx
      simpa using hnone x hx
    have hfind₂ :
        (db.rows ++ [(⟨db.nextId, s₁, content, hashFn content⟩ : ComposeRow)]).find?
            (fun r => r.hash = hashFn content) =
          some ⟨db.nextId, s₁, content, hashFn content⟩ := by
      rw [List.find?_append, h]
      simp
    refine ⟨?_, ?_, ?_⟩
    · simp [storeComposeFile, h, hfind₂]
    · simp [storeComposeFile, h, hfind₂]
    · intro _
      simp [storeComposeFile, h, hfind₂, List.filter_append, hfilter]
  · -- hit on the first store: nothing is inserted, the second store hits
    -- the same row again.
    refine ⟨?_, ?_, ?_⟩
    · simp [storeComposeFile, h]
    · simp [storeComposeFile, h]
    · intro hlen
      exfalso
      have hmem := List.find?_some h
      have hr : r ∈ db.rows.filter (fun r => r.hash = hashFn content) := by
        refine List.mem_filter.mpr ⟨List.mem_of_find?_eq_some h, ?_⟩
        simpa using hmem
      rcases List.length_eq_zero.mp hlen ▸ hr with ⟨⟩

/-- C8 counterexample — the claim says a 2xx response yields the body and
only non-2xx statuses are fetch errors, but the code accepts only status
exactly 200: a 201 response (a 2xx status) from the URL branch is
rejected as a fetch error. -/
theorem fetchComposeContent_201_counterexample :
    (fetchComposeContent (fun _ => .response 201 (some "services:"))
        (fun _ => none) "http://example.com/dc.yml").1 =
      .error "failed to download compose file: status 201" ∧
    200 ≤ 201 ∧ 201 < 300 := by
  constructor
  · rfl
  · decide

/-- C8 (amended) — Resolver fetch semantics: a source with an HTTP(S)
prefix triggers exactly one GET and no file read; the body is returned
iff the status is exactly 200 and the body read succeeds, and any
transport error, any status other than 200 (including other 2xx
statuses), or a body-read failure is a fetch error.  Any other source is
read as a local path with exactly one read and no GET, failing iff the
path is unreadable.  In every case exactly one attempt is made. -/
theorem fetchComposeContent_spec (get : String → HttpOutcome)
    (readFile : String → Option String) (source : String) :
    (((goHasPrefix source "http://" || goHasPrefix source "https://") = true →
        (fetchComposeContent get readFile source).2 = (1, 0) ∧
        (get source = .transportError →
          (fetchComposeContent get readFile source).1 =
            .error "failed to download compose file") ∧
        (∀ status body, get source = .response status body → status ≠ 200 →
          (fetchComposeContent get readFile source).1 =
            .error ("failed to download compose file: status " ++
              Nat.repr status)) ∧
        (∀ b, get source = .response 200 (some b) →
          (fetchComposeContent get readFile source).1 = .ok b) ∧
        (get source = .response 200 none →
          (fetchComposeContent get readFile source).1 =
            .error "failed to read response")) ∧
      ((goHasPrefix source "http://" || goHasPrefix source "https://") = false →
        (fetchComposeContent get readFile source).2 = (0, 1) ∧
        (readFile source = none →
          (fetchComposeContent get readFile source).1 =
            .error "failed to read compose file") ∧
        (∀ c, readFile source = some c →
          (fetchComposeContent get readFile source).1 = .ok c))) := by
  constructor
  · intro hurl
    refine ⟨?_, ?_, ?_, ?_, ?_⟩
    · rcases hg : get source with _ | ⟨status, body⟩
      · simp [fetchComposeContent, hurl, hg]
      · by_cases hs : status = 200
        · subst hs
          rcases body with _ | b <;> simp [fetchComposeContent, hurl, hg]
        · simp [fetchComposeContent, hurl, hg, hs]
    · intro hg
      simp [fetchComposeContent, hurl, hg]
    · intro status body hg hs
      simp [fetchComposeContent, hurl, hg, hs]
    · intro b hg
      simp [fetchComposeContent, hurl, hg]
    · intro hg
      simp [fetchComposeContent, hurl, hg]
  · intro hurl
    refine ⟨?_, ?_, ?_⟩
    · rcases hr : readFile source with _ | c <;>
        simp [fetchComposeContent, hurl, hr]
    · intro hr
      simp [fetchComposeContent, hurl, hr]
    · intro c hr
      simp [fetchComposeContent, hurl, hr]

/-- Closed witness for `fetchComposeContent_spec`: a URL source against a
stub answering 200 with a body, and a path source against a readable
file. -/
theorem fetchComposeContent_spec_witness :
    (fetchComposeContent (fun _ => .response 200 (some "services:"))
        (fun _ => none) "http://example.com/dc.yml").1 = .ok "services:" ∧
    (fetchComposeContent (fun _ => .transportError)
        (fun _ => some "services:") "docker-compose.yml").1 =
      .ok "services:" := by
  constructor
  · exact ((fetchComposeContent_spec
      (fun _ => .response 200 (some "services:")) (fun _ => none)
      "http://example.com/dc.yml").1 (by decide)).2.2.2.1 "services:" rfl
  · exact ((fetchComposeContent_spec (fun _ => .transportError)
      (fun _ => some "services:") "docker-compose.yml").2
      (by decide)).2.2 "services:" rfl

/-- Closed witness for `storeComposeFile_dedup`: with the identity digest,
an empty table and two distinct sources, the hypothesis (no pre-existing
row with the hash) holds and both conclusions evaluate. -/
theorem storeComposeFile_dedup_witness :
    (storeComposeFile id
        (storeComposeFile id ⟨[], 1⟩ "http://a/dc.yml" "services:").2
        "/tmp/dc.yml" "services:").1 =
      (storeComposeFile id ⟨[], 1⟩ "http://a/dc.yml" "services:").1 ∧
    ((((storeComposeFile id
        (storeComposeFile id ⟨[], 1⟩ "http://a/dc.yml" "services:").2
        "/tmp/dc.yml" "services:").2).rows.filter
          (fun r => r.hash = id "services:")).length = 1) := by
  have h := storeComposeFile_dedup id ⟨[], 1⟩ "http://a/dc.yml"
    "/tmp/dc.yml" "services:"
  exact ⟨h.1, h.2.2 (by decide)⟩

theorem filter_flatMap {α β : Type} (l : List α) (f : α → List β)
    (p : β → Bool) :
    (l.flatMap f).filter p = l.flatMap (fun a => (f a).filter p) := by
  induction l with
  | nil => simp
  | cons a l ih => simp [List.flatMap_cons, List.filter_append, ih]

/-- C4 — Auto-discovery acceptance and determinism: the auto-discovery
result is exactly the fixed candidate list (services in row order, then
the conventional paths in catalogue order) filtered by "the probe
answered exactly 200"; a URL is discovered iff it is a candidate URL of
some service and its probe returned status 200 (transport errors and any
other status are rejected); and the result for `svc :: rest` is the
accepted candidates of `svc` followed by the result for `rest`.  On the
fixed two-service example with a stub answering 200 on a known subset,
the result is exactly that subset in service-then-path order. -/
theorem discoverAutoSpecs_spec (services : List ServiceRow)
    (get : String → Option Nat) :
    discoverAutoSpecs services get =
      (services.flatMap (fun svc => serviceCandidateURLs svc.ports)).filter
        (fun u => get u == some 200) ∧
    (∀ u, u ∈ discoverAutoSpecs services get ↔
      ∃ svc ∈ services, u ∈ serviceCandidateURLs svc.ports ∧
        get u = some 200) ∧
    (∀ svc rest, discoverAutoSpecs (svc :: rest) get =
      (serviceCandidateURLs svc.ports).filter (fun u => get u == some 200) ++
        discoverAutoSpecs rest get) ∧
    discoverAutoSpecs
        [⟨1, "web", "nginx", "8080:8080"⟩, ⟨2, "api", "app", "9090:9090"⟩]
        (fun u =>
          if u = "http://localhost:8080/swagger.json" ∨
             u = "http://localhost:9090/openapi.json" ∨
             u = "http://localhost:9090/api-docs" then some 200
          else if u = "http://localhost:8080/api-docs" then none
          else some 404) =
      ["http://localhost:8080/swagger.json",
       "http://localhost:9090/openapi.json",
       "http://localhost:9090/api-docs"] := by
  refine ⟨(filter_flatMap services _ _).symm, ?_, ?_, by decide⟩
  · intro u
    simp only [discoverAutoSpecs, List.mem_flatMap, List.mem_filter,
      beq_iff_eq, and_assoc]
  · intro svc rest
    simp [discoverAutoSpecs, List.flatMap_cons]

/-- C5 — SLA comparison correctness: when the endpoint lookup scan
succeeds (a matching `endpoints` row with both thresholds present), the
response-time flag is set iff `avg_response_time` strictly exceeds
`sla_response_time` and the error-rate flag iff `error_rate` strictly
exceeds `sla_error_rate`; when no row matches, no check is performed and
no violation line is emitted.  Concretely: avg 600 against SLA 500 is
flagged, avg 400 against SLA 500 is not. -/
theorem slaFlags_spec (endpoints : List EndpointRow) (endpoint : String)
    (avgTime errorRate : ℚ) :
    (∀ e st se, endpoints.find? (fun e => e.path = endpoint) = some e →
      e.slaTime = some st → e.slaError = some se →
      ((slaFlags endpoints endpoint avgTime errorRate).1 = true ↔
        (st : ℚ) < avgTime) ∧
      ((slaFlags endpoints endpoint avgTime errorRate).2 = true ↔
        se < errorRate)) ∧
    (endpoints.find? (fun e => e.path = endpoint) = none →
      slaFlags endpoints endpoint avgTime errorRate = (false, false) ∧
      ∀ fmt, slaViolationLines fmt endpoints endpoint avgTime errorRate
        = []) ∧
    slaFlags [⟨1, 1, "/api", "GET", some 500, some 1⟩] "/api" 600 0 =
      (true, false) ∧
    slaFlags [⟨1, 1, "/api", "GET", some 500, some 1⟩] "/api" 400 0 =
      (false, false) := by
  refine ⟨?_, ?_, by decide, by decide⟩
  · intro e st se hfind hst hse
    constructor
    · simp [slaFlags, hfind, hst, hse, gt_iff_lt]
    · simp [slaFlags, hfind, hst, hse, gt_iff_lt]
  · intro hfind
    exact ⟨by simp [slaFlags, hfind], fun fmt => by
      simp [slaViolationLines, hfind]⟩

/-- Closed witness for `slaFlags_spec`: on a concrete table whose lookup
succeeds, the iff instantiates, and on a table with no matching path the
no-check conclusion instantiates. -/
theorem slaFlags_spec_witness :
    ((slaFlags [⟨1, 1, "/api", "GET", some 500, some 1⟩] "/api"
        600 0).1 = true ↔ ((500 : Int) : ℚ) < 600) ∧
    slaFlags [⟨1, 1, "/api", "GET", some 500, some 1⟩] "/other"
      600 0 = (false, false) := by
  constructor
  · exact (((slaFlags_spec [⟨1, 1, "/api", "GET", some 500, some 1⟩]
      "/api" 600 0).1 ⟨1, 1, "/api", "GET", some 500, some 1⟩
      500 1 (by decide) rfl rfl).1)
  · exact ((slaFlags_spec [⟨1, 1, "/api", "GET", some 500, some 1⟩]
      "/other" 600 0).2.1 (by decide)).1

/-- C6 (amended) — Historical comparison with no history: when an
endpoint has no metric samples from other runs, the `AVG` scan fails on
the NULL aggregate and the `compareHistory` branch emits no comparison
line at all — the analysis is total (no crash) and no NaN or infinite
percentage can appear, but nothing is printed for that endpoint's
history either. -/
theorem historyLines_no_history (fmt : ℚ → String)
    (metrics : List MetricRow) (runId : Nat) (endpoint : String)
    (avgTime : ℚ)
    (h : historicalOthers metrics endpoint runId = []) :
    historyLines fmt metrics runId endpoint avgTime = [] := by
  simp [historyLines, h]

/-- Closed witness for `historyLines_no_history`: a single-sample store
has no history for its own run. -/
theorem historyLines_no_history_witness :
    historyLines (fun _ => "0.0") [⟨1, "/api/endpoint", 150, 2⟩] 1
      "/api/endpoint" 150 = [] :=
  historyLines_no_history (fun _ => "0.0")
    [⟨1, "/api/endpoint", 150, 2⟩] 1 "/api/endpoint" 150 (by decide)

/-- C6 counterexample — the claim says the analyzer reports
"no historical data" for an endpoint with no samples from other runs;
on a concrete store with exactly one run, the full per-endpoint section
(with `compareHistory` enabled) contains only the header and the two
aggregate lines, and no line of it contains the text
"no historical data". -/
theorem analyze_no_history_counterexample :
    endpointSection (fun _ => "0.0") [] [⟨1, "/api/endpoint", 150, 2⟩]
        1 ⟨1, "/api/endpoint", 150, 2⟩ true =
      ["### /api/endpoint", "- Avg Response Time: 0.0 ms",
       "- Error Rate: 0.0%"] ∧
    ∀ l ∈ endpointSection (fun _ => "0.0") []
        [⟨1, "/api/endpoint", 150, 2⟩] 1
        ⟨1, "/api/endpoint", 150, 2⟩ true,
      goContains l "no historical data" = false := by
  constructor
  · decide
  · decide

theorem mem_first_of_three {α : Type} [DecidableEq α] (a b c : Bool)
    {x y z : α} (hxy : x ≠ y) (hxz : x ≠ z) :
    (x ∈ (if a then [x] else []) ++ (if b then [y] else []) ++
      (if c then [z] else [])) ↔ a = true := by
  cases a <;> cases b <;> cases c <;> simp [hxy, hxz]

theorem mem_second_of_three {α : Type} [DecidableEq α] (a b c : Bool)
    {x y z : α} (hyx : y ≠ x) (hyz : y ≠ z) :
    (y ∈ (if a then [x] else []) ++ (if b then [y] else []) ++
      (if c then [z] else [])) ↔ b = true := by
  cases a <;> cases b <;> cases c <;> simp [hyx, hyz]

theorem mem_third_of_three {α : Type} [DecidableEq α] (a b c : Bool)
    {x y z : α} (hzx : z ≠ x) (hzy : z ≠ y) :
    (z ∈ (if a then [x] else []) ++ (if b then [y] else []) ++
      (if c then [z] else [])) ↔ c = true := by
  cases a <;> cases b <;> cases c <;> simp [hzx, hzy]

set_option maxRecDepth 8000 in
/-- C9 — UI instruction parsing: the click action is emitted iff the
lowered text contains both "click" and "button", the type action iff it
contains "type" or "enter", the wait action iff it contains "wait"; when
no trigger matches, no action is produced; the emitted actions always
form a sublist of the fixed scan order [click, type, wait]; the
generated script is the navigation header (with the URL) followed by the
actions; and on an instruction whose keywords appear in the order wait,
enter, click, the actions still come out click, type, wait. -/
theorem parseUIInstructions_spec (url instr : String) :
    (clickAction ∈ parseUIInstructions instr ↔
      (goContains (goToLower instr) "click" = true ∧
       goContains (goToLower instr) "button" = true)) ∧
    (typeAction ∈ parseUIInstructions instr ↔
      (goContains (goToLower instr) "type" = true ∨
       goContains (goToLower instr) "enter" = true)) ∧
    (waitAction ∈ parseUIInstructions instr ↔
      goContains (goToLower instr) "wait" = true) ∧
    ((goContains (goToLower instr) "click" &&
        goContains (goToLower instr) "button") = false →
      (goContains (goToLower instr) "type" ||
        goContains (goToLower instr) "enter") = false →
      goContains (goToLower instr) "wait" = false →
      parseUIInstructions instr = []) ∧
    List.Sublist (parseUIInstructions instr)
      [clickAction, typeAction, waitAction] ∧
    generateK6UITest url instr =
      uiScriptHeader url ++
        String.join ((parseUIInstructions instr).map
          (fun action => "    " ++ action ++ "\n")) ++
        uiScriptFooter ∧
    parseUIInstructions
        "Wait for the page, then Enter the name, then CLICK the submit button" =
      [clickAction, typeAction, waitAction] := by
  have d₁ : clickAction ≠ typeAction := by decide
  have d₂ : clickAction ≠ waitAction := by decide
  have d₃ : typeAction ≠ waitAction := by decide
  refine ⟨?_, ?_, ?_, ?_, ?_, rfl, by decide⟩
  · rw [show parseUIInstructions instr =
      (if goContains (goToLower instr) "click" &&
          goContains (goToLower instr) "button" then [clickAction] else []) ++
      (if goContains (goToLower instr) "type" ||
          goContains (goToLower instr) "enter" then [typeAction] else []) ++
      (if goContains (goToLower instr) "wait" then [waitAction] else [])
      from rfl]
    rw [mem_first_of_three _ _ _ d₁ d₂]
    simp
  · rw [show parseUIInstructions instr =
      (if goContains (goToLower instr) "click" &&
          goContains (goToLower instr) "button" then [clickAction] else []) ++
      (if goContains (goToLower instr) "type" ||
          goContains (goToLower instr) "enter" then [typeAction] else []) ++
      (if goContains (goToLower instr) "wait" then [waitAction] else [])
      from rfl]
    rw [mem_second_of_three _ _ _ d₁.symm d₃]
    simp
  · rw [show parseUIInstructions instr =
      (if goContains (goToLower instr) "click" &&
          goContains (goToLower instr) "button" then [clickAction] else []) ++
      (if goContains (goToLower instr) "type" ||
          goContains (goToLower instr) "enter" then [typeAction] else []) ++
      (if goContains (goToLower instr) "wait" then [waitAction] else [])
      from rfl]
    rw [mem_third_of_three _ _ _ d₂.symm d₃.symm]
  · intro h₁ h₂ h₃
    simp [parseUIInstructions, h₁, h₂, h₃]
  · cases h₁ : goContains (goToLower instr) "click" &&
        goContains (goToLower instr) "button" <;>
      cases h₂ : goContains (goToLower instr) "type" ||
        goContains (goToLower instr) "enter" <;>
      cases h₃ : goContains (goToLower instr) "wait" <;>
      simp [parseUIInstructions, h₁, h₂, h₃]

set_option maxRecDepth 8000 in
/-- Closed witness for `parseUIInstructions_spec`: an instruction with
none of the trigger substrings produces no action. -/
theorem parseUIInstructions_spec_witness :
    parseUIInstructions "Scroll to the bottom of the page" = [] :=
  ((parseUIInstructions_spec "http://localhost:8082"
    "Scroll to the bottom of the page").2.2.2.1)
    (by decide) (by decide) (by decide)

set_option maxRecDepth 8000 in
/-- C10 — the generated API-test script always has at least 200
characters (so the 200-character preview slice `script[:200]` in
`generate_api_tests` is in range for every input; every template
character is ASCII, so the character count is a lower bound on Go's byte
count). -/
theorem generateK6APITest_length (specId endpoints testType : String) :
    200 ≤ (generateK6APITest specId endpoints testType).length := by
  have base : 200 ≤
      ("import http from 'k6/http';\nimport \x7b check \x7d from 'k6';\n\nexport const options = \x7b\n  scenarios: \x7b\n    ").length +
      ("_test: \x7b\n      executor: '").length +
      ("',\n      ").length +
      ("\n    \x7d,\n  \x7d,\n\x7d;\n\nexport default function () \x7b\n  // Generated from spec ").length +
      ("\n  // Testing endpoints: ").length +
      ("\n  const res = http.get('http://localhost:8080/api/endpoint');\n  check(res, \x7b\n    'status is 200': (r) => r.status === 200,\n  \x7d);\n\x7d").length := by
    decide
  simp only [generateK6APITest, String.length_append]
  omega

theorem toDigitsCore_eq (fuel : ℕ) :
    ∀ (n : ℕ) (acc : List Char), n < fuel →
      Nat.toDigitsCore 10 fuel n acc =
        (if n = 0 then ['0']
         else ((Nat.digits 10 n).map Nat.digitChar).reverse) ++ acc := by
  induction fuel with
  | zero => intro n acc h; omega
  | succ fuel ih =>
      intro n acc h
      by_cases h0 : n = 0
      · subst h0
        simp [Nat.toDigitsCore, Nat.digitChar]
      · by_cases h10 : n / 10 = 0
        · have hlt : n < 10 := by omega
          rw [Nat.toDigitsCore]
          simp only [h10, if_true]
          rw [Nat.digits_of_lt 10 n h0 hlt]
          simp [Nat.mod_eq_of_lt hlt, h0]
        · have hdiv : n / 10 < n := Nat.div_lt_self (by omega) (by omega)
          have hfuel : n / 10 < fuel := by omega
          rw [Nat.toDigitsCore]
          simp only [h10, if_false]
          rw [ih (n / 10) _ hfuel]
          rw [Nat.digits_def' (by omega : (1:ℕ) < 10) (by omega : 0 < n)]
          simp [h0, h10, List.append_assoc]

theorem nat_repr_data (n : ℕ) :
    (Nat.repr n).data =
      if n = 0 then ['0']
      else ((Nat.digits 10 n).map Nat.digitChar).reverse := by
  show (Nat.toDigits 10 n).asString.data = _
  rw [Nat.toDigits, toDigitsCore_eq (n + 1) n [] (Nat.lt_succ_self n)]
  simp [List.asString]

theorem digitChar_inj_lt10 :
    ∀ a < 10, ∀ b < 10, Nat.digitChar a = Nat.digitChar b → a = b := by
  decide

theorem map_digitChar_inj :
    ∀ l₁ l₂ : List ℕ, (∀ d ∈ l₁, d < 10) → (∀ d ∈ l₂, d < 10) →
      l₁.map Nat.digitChar = l₂.map Nat.digitChar → l₁ = l₂ := by
  intro l₁
  induction l₁ with
  | nil => intro l₂ _ _ h; cases l₂ <;> simp_all
  | cons a l ih =>
      intro l₂ h₁ h₂ h
      cases l₂ with
      | nil => simp_all
      | cons b l' =>
          simp only [List.map_cons, List.cons.injEq] at h
          have ha := h₁ a (by simp)
          have hb := h₂ b (by simp)
          have : a = b := digitChar_inj_lt10 a ha b hb h.1
          subst this
          rw [ih l' (fun d hd => h₁ d (by simp [hd]))
            (fun d hd => h₂ d (by simp [hd])) h.2]

theorem nat_repr_injective : Function.Injective Nat.repr := by
  intro m n h
  have hd : (Nat.repr m).data = (Nat.repr n).data := by rw [h]
  rw [nat_repr_data, nat_repr_data] at hd
  by_cases hm : m = 0 <;> by_cases hn : n = 0
  · omega
  · exfalso
    simp only [hm, if_true, hn, if_false] at hd
    have : (Nat.digits 10 n).map Nat.digitChar = ['0'] := by
      have := congrArg List.reverse hd
      simpa using this.symm
    have hdig : Nat.digits 10 n = [0] := by
      have this' : (Nat.digits 10 n).map Nat.digitChar =
          List.map Nat.digitChar [0] := by rw [this]; rfl
      apply map_digitChar_inj _ _ _ _ this'
      · intro d hd'
        exact Nat.digits_lt_base (by omega) hd'
      · intro d hd'
        simp at hd'
        omega
    have := Nat.ofDigits_digits 10 n
    rw [hdig] at this
    simp [Nat.ofDigits] at this
    omega
  · exfalso
    simp only [hm, if_false, hn, if_true] at hd
    have : (Nat.digits 10 m).map Nat.digitChar = ['0'] := by
      have := congrArg List.reverse hd
      simpa using this
    have hdig : Nat.digits 10 m = [0] := by
      have this' : (Nat.digits 10 m).map Nat.digitChar =
          List.map Nat.digitChar [0] := by rw [this]; rfl
      apply map_digitChar_inj _ _ _ _ this'
      · intro d hd'
        exact Nat.digits_lt_base (by omega) hd'
      · intro d hd'
        simp at hd'
        omega
    have := Nat.ofDigits_digits 10 m
    rw [hdig] at this
    simp [Nat.ofDigits] at this
    omega
  · simp only [hm, hn, if_false] at hd
    have hmap : (Nat.digits 10 m).map Nat.digitChar =
        (Nat.digits 10 n).map Nat.digitChar := by
      have := congrArg List.reverse hd
      simpa using this
    have hdig : Nat.digits 10 m = Nat.digits 10 n :=
      map_digitChar_inj _ _
        (fun d hd' => Nat.digits_lt_base (by omega) hd')
        (fun d hd' => Nat.digits_lt_base (by omega) hd') hmap
    exact Nat.digits_inj_iff.mp hdig

theorem string_append_left_cancel {a b c : String}
    (h : a ++ b = a ++ c) : b = c := by
  have hd := congrArg String.data h
  rw [String.data_append, String.data_append] at hd
  exact String.ext (List.append_cancel_left hd)

/-- C3 counterexample — operation identifiers are not unique per
operation: the working directory is a function of the session id and the
Unix second alone, so two concurrent materialize calls for session 1
that both observe second 1700000000 receive the identical directory
`/tmp/k6-test-1-1700000000` (their two directories are not pairwise
distinct), and the discovery project name is a function of the session
id alone, so two concurrent discoveries of session 7 both receive
`discover-7`. -/
theorem operation_identifiers_counterexample :
    writeComposeTempDir "/tmp" 1 1700000000 = "/tmp/k6-test-1-1700000000" ∧
    ¬ (List.Pairwise (fun a b => a ≠ b)
        ((
          [1700000000, 1700000000].map
            (fun t => writeComposeTempDir "/tmp" 1 t)))) ∧
    discoverProjectName 7 = "discover-7" ∧
    ¬ (List.Pairwise (fun a b => a ≠ b)
        [discoverProjectName 7, discoverProjectName 7]) := by
  refine ⟨rfl, ?_, rfl, ?_⟩
  · intro h
    rw [List.map_cons, List.map_cons, List.map_nil] at h
    rcases List.pairwise_cons.mp h with ⟨h1, -⟩
    exact h1 _ (List.mem_cons_self _ _) rfl
  · intro h
    rcases List.pairwise_cons.mp h with ⟨h1, -⟩
    exact h1 _ (List.mem_cons_self _ _) rfl

/-- C3 (amended) — Per-operation identifiers are distinct only as far as
their inputs differ: for one session, two materialize calls receive
distinct working directories iff they observe different Unix seconds
(same-second calls collide); the execution project names
`perftest-<unix>` are distinct exactly for different seconds; the
discovery project name depends only on the session id (two discoveries
of one session always share it), while discovery and execution use
different prefixes, so a discovery and an execution never collide on a
project name. -/
theorem operation_identifiers_amended (tmp : String) (s t₁ t₂ : Nat) :
    (writeComposeTempDir tmp s t₁ = writeComposeTempDir tmp s t₂ ↔
      t₁ = t₂) ∧
    (perftestProjectName t₁ = perftestProjectName t₂ ↔ t₁ = t₂) ∧
    discoverProjectName s = discoverProjectName s ∧
    (∀ s' t', discoverProjectName s' ≠ perftestProjectName t') := by
  refine ⟨⟨fun h => ?_, fun h => by rw [h]⟩,
    ⟨fun h => ?_, fun h => by rw [h]⟩, rfl, fun s' t' h => ?_⟩
  · exact nat_repr_injective (string_append_left_cancel h)
  · exact nat_repr_injective (string_append_left_cancel h)
  · have hd := congrArg String.data h
    rw [discoverProjectName, perftestProjectName,
      String.data_append, String.data_append] at hd
    have := List.append_inj hd (by decide)
    exact absurd this.1 (by decide)

theorem exec_stop_ge :
    ∀ (p : List Instr) (n : Nat) (k : StopKind) (ds : List Event),
      p.length ≤ n → exec p (some (n, k)) ds = exec p none ds := by
  intro p
  induction p with
  | nil => intro n k ds _; rfl
  | cons i rest ih =>
      intro n k ds h
      match n with
      | n + 1 =>
          have hr : rest.length ≤ n := by
            simpa [Nat.succ_le_succ_iff] using h
          cases i <;> simp [exec, decrStop, ih n k _ hr]

/-- C1 — Cleanup invariant: in each of the four container-running
handlers, on every execution that gets past the compose-up acquisition
(instruction 3, 3, 5 and 4 of the respective body) — whether it then
returns normally, returns an error at any later error-checked call, or
panics at any later statement — the compose-down teardown is emitted
exactly once, the working-directory removal exactly once, and the
teardown strictly before the removal. -/
theorem cleanup_bracket_invariant (a : Bool)
    (s₁ s₂ s₃ s₄ : Option (Nat × StopKind)) :
    (okPast 3 s₁ → tearDownOnceBeforeRemove (exec (discoverProg a) s₁ [])) ∧
    (okPast 3 s₂ → tearDownOnceBeforeRemove (exec runPerfProg s₂ [])) ∧
    (okPast 5 s₃ → tearDownOnceBeforeRemove (exec testAppProg s₃ [])) ∧
    (okPast 4 s₄ → tearDownOnceBeforeRemove (exec quickProg s₄ [])) := by
  refine ⟨?_, ?_, ?_, ?_⟩
  · rcases s₁ with _ | ⟨n, k⟩
    · intro _
      cases a <;> decide
    · intro h
      simp only [okPast] at h
      cases a
      · by_cases hL : n < 7
        · interval_cases n <;> cases k <;> decide
        · rw [exec_stop_ge _ n k _
            (by rw [show (discoverProg false).length = 7 from rfl]; omega)]
          decide
      · by_cases hL : n < 9
        · interval_cases n <;> cases k <;> decide
        · rw [exec_stop_ge _ n k _
            (by rw [show (discoverProg true).length = 9 from rfl]; omega)]
          decide
  · rcases s₂ with _ | ⟨n, k⟩
    · intro _
      decide
    · intro h
      simp only [okPast] at h
      by_cases hL : n < 11
      · interval_cases n <;> cases k <;> decide
      · rw [exec_stop_ge _ n k _
          (by rw [show runPerfProg.length = 11 from rfl]; omega)]
        decide
  · rcases s₃ with _ | ⟨n, k⟩
    · intro _
      decide
    · intro h
      simp only [okPast] at h
      by_cases hL : n < 15
      · interval_cases n <;> cases k <;> decide
      · rw [exec_stop_ge _ n k _
          (by rw [show testAppProg.length = 15 from rfl]; omega)]
        decide
  · rcases s₄ with _ | ⟨n, k⟩
    · intro _
      decide
    · intro h
      simp only [okPast] at h
      by_cases hL : n < 9
      · interval_cases n <;> cases k <;> decide
      · rw [exec_stop_ge _ n k _
          (by rw [show quickProg.length = 9 from rfl]; omega)]
        decide

/-- Closed witness for `cleanup_bracket_invariant`: the four full
(no-failure) executions all tear down exactly once before removing the
working directory. -/
theorem cleanup_bracket_invariant_witness :
    tearDownOnceBeforeRemove (exec (discoverProg true) none []) ∧
    tearDownOnceBeforeRemove (exec runPerfProg none []) ∧
    tearDownOnceBeforeRemove (exec testAppProg none []) ∧
    tearDownOnceBeforeRemove (exec quickProg none []) := by
  have h := cleanup_bracket_invariant true none none none none
  exact ⟨h.1 trivial, h.2.1 trivial, h.2.2.1 trivial, h.2.2.2 trivial⟩

/-- C7 — TestRun audit row lifecycle: in every execution of
run_performance_test in which the k6 invocation happens, the TestRun
insert happened strictly before it; no execution updates the row more
than once and the full run updates it exactly once; a non-zero k6 exit
yields an ExecutionError carrying the combined process output and
leaves the row without completion time or results; a successful run
completes the row with the raw output. -/
theorem testRun_lifecycle (stop : Option (Nat × StopKind))
    (testId : String) (vus : Nat) (duration : String)
    (k6Ok : Bool) (errText output : String) :
    (Event.k6Run ∈ exec runPerfProg stop [] →
      Event.insertRun ∈ exec runPerfProg stop [] ∧
      (exec runPerfProg stop []).indexOf Event.insertRun <
        (exec runPerfProg stop []).indexOf Event.k6Run) ∧
    (exec runPerfProg stop []).count Event.updateRun ≤ 1 ∧
    (exec runPerfProg none []).count Event.updateRun = 1 ∧
    (k6Ok = false →
      (runPerfExecution testId vus duration k6Ok errText output).1 =
        .execError ("Test execution failed: " ++ errText ++ "\n" ++
          output) ∧
      (runPerfExecution testId vus duration k6Ok errText
        output).2.completedAt = false ∧
      (runPerfExecution testId vus duration k6Ok errText
        output).2.results = none) ∧
    (k6Ok = true →
      (runPerfExecution testId vus duration k6Ok errText output).1 =
        .ok output ∧
      (runPerfExecution testId vus duration k6Ok errText output).2 =
        ⟨testId, vus, duration, true, some output⟩) := by
  refine ⟨?_, ?_, by decide, ?_, ?_⟩
  · rcases stop with _ | ⟨n, k⟩
    · decide
    · by_cases hL : n < 11
      · interval_cases n <;> cases k <;> decide
      · rw [exec_stop_ge _ n k _
          (by rw [show runPerfProg.length = 11 from rfl]; omega)]
        decide
  · rcases stop with _ | ⟨n, k⟩
    · decide
    · by_cases hL : n < 11
      · interval_cases n <;> cases k <;> decide
      · rw [exec_stop_ge _ n k _
          (by rw [show runPerfProg.length = 11 from rfl]; omega)]
        decide
  · intro h
    subst h
    simp [runPerfExecution]
  · intro h
    subst h
    simp [runPerfExecution]

/-- Closed witness for `testRun_lifecycle`: on the full run the insert
precedes the k6 invocation, and on concrete failing and succeeding runs
the row ends incomplete and complete respectively. -/
theorem testRun_lifecycle_witness :
    (exec runPerfProg none []).indexOf Event.insertRun <
      (exec runPerfProg none []).indexOf Event.k6Run ∧
    ((runPerfExecution "7" 10 "30s" false "exit status 99"
      "out").2).completedAt = false ∧
    (runPerfExecution "7" 10 "30s" true "" "out").2 =
      ⟨"7", 10, "30s", true, some "out"⟩ := by
  have h := testRun_lifecycle none "7" 10 "30s" false "exit status 99" "out"
  have h' := testRun_lifecycle none "7" 10 "30s" true "" "out"
  exact ⟨(h.1 (by decide)).2, (h.2.2.2.1 rfl).2.1, (h'.2.2.2.2 rfl).2⟩

/-- Closed witness for `operation_identifiers_amended`: distinct seconds
give distinct directories and distinct `perftest` project names, and a
discovery never collides with an execution. -/
theorem operation_identifiers_amended_witness :
    writeComposeTempDir "/tmp" 1 100 ≠ writeComposeTempDir "/tmp" 1 101 ∧
    perftestProjectName 100 ≠ perftestProjectName 101 ∧
    discoverProjectName 1 ≠ perftestProjectName 1 := by
  have h := operation_identifiers_amended "/tmp" 1 100 101
  exact ⟨fun he => absurd (h.1.mp he) (by decide),
    fun he => absurd (h.2.1.mp he) (by decide),
    h.2.2.2 1 1⟩

end SpeakPerf
